import Mathlib

/- Shallow embedding of the transaction-construction and response-normalization
   layer of the repository (src/pendle.py and src/pendle_api_client.py).

   Modelling conventions:
   - Python JSON-like values (dicts, lists, strings, numbers, booleans, None)
     are modelled by `PyVal`; numbers are modelled by rationals.  The only
     arithmetic the embedded code performs on numbers is multiplication by
     100, division by a power of ten, and fixed-point percentage formatting,
     which we model over the rationals with round-half-to-even (the rounding
     CPython uses when formatting a float with a fixed number of decimals).
   - A Python dict literal is modelled as an association list in the literal
     insertion order; keys are unique.
   - A raised Python exception is modelled as a `PyExc` (class tag plus
     message); a function that can raise returns `Except PyExc _`.
   - Network interaction is modelled by explicit oracle arguments
     (`HttpOutcome` for HTTP calls, `ChainOutcome` for the chain) together
     with the list of network events the call emits, so a call that issues
     zero network calls emits `[]`. -/

inductive PyVal where
  | none
  | bool (b : Bool)
  | num (q : ℚ)
  | str (s : String)
  | list (l : List PyVal)
  | dict (d : List (String × PyVal))

/-- Python truthiness of a JSON-like value. -/
def truthy : PyVal → Bool
  | .none => false
  | .bool b => b
  | .num q => decide (q ≠ 0)
  | .str s => decide (s ≠ "")
  | .list [] => false
  | .list (_ :: _) => true
  | .dict [] => false
  | .dict (_ :: _) => true

/-- Lookup in an association-list dict (keys are unique in any Python dict). -/
def dictGet : List (String × PyVal) → String → Option PyVal
  | [], _ => Option.none
  | (k, v) :: rest, key => if k = key then some v else dictGet rest key

/-- Field projection used only in theorem statements:
    the value stored under `key` when `v` is a dict. -/
def pyField (v : PyVal) (key : String) : Option PyVal :=
  match v with
  | .dict d => dictGet d key
  | _ => Option.none

def listStartsWith : List Char → List Char → Bool
  | [], _ => true
  | _ :: _, [] => false
  | p :: ps, c :: cs => p = c && listStartsWith ps cs

def listHasSub (p : List Char) : List Char → Bool
  | [] => p.isEmpty
  | c :: rest => listStartsWith p (c :: rest) || listHasSub p rest

/-- Python substring test: the expression `pat in s` on strings. -/
def strContains (pat s : String) : Bool :=
  listHasSub pat.data s.data

/- Exception classes appearing in the embedded code.  `pendleError` is the
   base class PendleError of src/pendle.py; the classes below it are its
   subclasses defined there.  The remaining tags model the standard-library
   and httpx exception classes the code can encounter. -/
inductive PyExcClass where
  | pendleError
  | insufficientBalanceError
  | marketExpiredError
  | invalidParametersError
  | valueError
  | typeError
  | attributeError
  | httpStatusError
  | jsonDecodeError
  | transportError
deriving DecidableEq

structure PyExc where
  cls : PyExcClass
  msg : String
deriving DecidableEq

/-- src/pendle.py `_handle_contract_error`: maps the string form of a failed
    chain call to the exception it raises (the Python function always raises;
    we return the raised exception). -/
def handle_contract_error (error_msg : String) : PyExc :=
  if strContains "MarketExpired" error_msg then
    ⟨.marketExpiredError, "Market has expired"⟩
  else if strContains "MarketExchangeRateBelowOne" error_msg then
    ⟨.pendleError, "Market exchange rate is below one"⟩
  else if strContains "MarketProportionTooHigh" error_msg then
    ⟨.pendleError, "Market proportion is too high"⟩
  else if strContains "MarketZeroAmountsInput" error_msg then
    ⟨.invalidParametersError, "Zero amounts provided for input"⟩
  else if strContains "MarketZeroAmountsOutput" error_msg then
    ⟨.invalidParametersError, "Zero amounts provided for output"⟩
  else
    ⟨.pendleError, "Contract error: " ++ error_msg⟩

/- src/pendle.py `SwapType`: the nine-member contract enum. -/
inductive SwapType where
  | NONE
  | KYBERSWAP
  | ONE_INCH
  | NATIVE
  | UNISWAPV2
  | UNISWAPV3
  | CURVE
  | BALANCER
  | BANCOR
deriving DecidableEq

def SwapType.value : SwapType → ℕ
  | .NONE => 0
  | .KYBERSWAP => 1
  | .ONE_INCH => 2
  | .NATIVE => 3
  | .UNISWAPV2 => 4
  | .UNISWAPV3 => 5
  | .CURVE => 6
  | .BALANCER => 7
  | .BANCOR => 8

/-- Python enum construction by value, `SwapType(n)`: returns the member with
    that value, and raises ValueError (message as CPython renders it) for any
    other value.  This is the Python-language semantics of calling the Enum
    class defined in src/pendle.py. -/
def SwapType.fromOrdinal : ℕ → Except PyExc SwapType
  | 0 => .ok .NONE
  | 1 => .ok .KYBERSWAP
  | 2 => .ok .ONE_INCH
  | 3 => .ok .NATIVE
  | 4 => .ok .UNISWAPV2
  | 5 => .ok .UNISWAPV3
  | 6 => .ok .CURVE
  | 7 => .ok .BALANCER
  | 8 => .ok .BANCOR
  | n => .error ⟨.valueError, toString n ++ " is not a valid SwapType"⟩

structure SwapData where
  swapType : SwapType
  extRouter : String
  extCalldata : List ℕ
  needScale : Bool
deriving DecidableEq

structure ApproxParams where
  guessMin : ℤ
  guessMax : ℤ
  guessOffchain : ℤ
  maxIteration : ℤ
  eps : ℤ
deriving DecidableEq

structure TokenInput where
  tokenIn : String
  netTokenIn : ℤ
  tokenMintSy : String
  pendleSwap : String
  swapData : SwapData
deriving DecidableEq

structure TokenOutput where
  tokenOut : String
  minTokenOut : ℤ
  tokenRedeemSy : String
  pendleSwap : String
  swapData : SwapData
deriving DecidableEq

/-- src/pendle.py `create_approx_params` with its documented defaults. -/
def create_approx_params (guess_min : ℤ := 0) (guess_max : ℤ := 10 ^ 18)
    (guess_offchain : ℤ := 0) (max_iteration : ℤ := 256)
    (eps : ℤ := 10 ^ 15) : ApproxParams :=
  ⟨guess_min, guess_max, guess_offchain, max_iteration, eps⟩

/-- src/pendle.py `create_swap_data`. -/
def create_swap_data (swap_type : SwapType)
    (ext_router : String := "0x0000000000000000000000000000000000000000")
    (ext_calldata : List ℕ := []) (need_scale : Bool := false) : SwapData :=
  ⟨swap_type, ext_router, ext_calldata, need_scale⟩

/-- src/pendle.py `create_token_input`. -/
def create_token_input (token_in : String) (net_token_in : ℤ)
    (token_mint_sy : String) (pendle_swap : String)
    (swap_data : SwapData) : TokenInput :=
  ⟨token_in, net_token_in, token_mint_sy, pendle_swap, swap_data⟩

/-- src/pendle.py `create_token_output`. -/
def create_token_output (token_out : String) (min_token_out : ℤ)
    (token_redeem_sy : String) (pendle_swap : String)
    (swap_data : SwapData) : TokenOutput :=
  ⟨token_out, min_token_out, token_redeem_sy, pendle_swap, swap_data⟩

/- Fixed-point percentage formatting.  CPython formats a float with a fixed
   number of decimals by rounding half to even; we model the wire values as
   rationals and the format specifier `.Nf` by `formatFixed N`. -/

def rat_floor (q : ℚ) : ℤ :=
  Int.fdiv q.num (q.den : ℤ)

def round_half_even (q : ℚ) : ℤ :=
  let f := rat_floor q
  let r := q - (f : ℚ)
  if r < 1 / 2 then f
  else if 1 / 2 < r then f + 1
  else if f % 2 = 0 then f else f + 1

def zero_pad (width : ℕ) (s : String) : String :=
  String.mk (List.replicate (width - s.length) '0') ++ s

def formatFixed (decimals : ℕ) (x : ℚ) : String :=
  let scaled := round_half_even (x * 10 ^ decimals)
  let sign := if scaled < 0 then "-" else ""
  let a := scaled.natAbs
  if decimals = 0 then sign ++ toString (a : ℕ)
  else sign ++ toString (a / 10 ^ decimals) ++ "." ++ zero_pad decimals (toString (a % 10 ^ decimals))

/-- Python f-string `0x` + 040x-padded hex rendering of a chain id. -/
def nat_to_hex (n : ℕ) : String :=
  (Nat.toDigits 16 n).asString

def hex040 (n : ℕ) : String :=
  "0x" ++ zero_pad 40 (nat_to_hex n)

/- ===== Chain Transaction Executor (src/pendle.py) ===== -/

abbrev ApproxTuple := ℤ × ℤ × ℤ × ℤ × ℤ
abbrev SwapDataTuple := ℕ × String × List ℕ × Bool
abbrev TokenInputTuple := String × ℤ × String × String × SwapDataTuple
abbrev TokenOutputTuple := String × ℤ × String × String × SwapDataTuple
abbrev LimitOrderTuple := String × ℤ × List PyVal × List PyVal × List ℕ

def approx_params_tuple (a : ApproxParams) : ApproxTuple :=
  (a.guessMin, a.guessMax, a.guessOffchain, a.maxIteration, a.eps)

def swap_data_tuple (s : SwapData) : SwapDataTuple :=
  (s.swapType.value, s.extRouter, s.extCalldata, s.needScale)

def token_input_tuple (t : TokenInput) : TokenInputTuple :=
  (t.tokenIn, t.netTokenIn, t.tokenMintSy, t.pendleSwap, swap_data_tuple t.swapData)

def token_output_tuple (t : TokenOutput) : TokenOutputTuple :=
  (t.tokenOut, t.minTokenOut, t.tokenRedeemSy, t.pendleSwap, swap_data_tuple t.swapData)

/-- The fixed empty limit-order tuple built inline by the source. -/
def empty_limit_order_data : LimitOrderTuple :=
  ("0x0000000000000000000000000000000000000000", 0, [], [], [])

/-- The exact positional router call assembled by each operation. -/
inductive RouterCall where
  | addLiquidityDualSyAndPt (receiver market : String) (netSyDesired netPtDesired minLpOut : ℤ)
  | addLiquiditySingleSy (receiver market : String) (netSyIn minLpOut : ℤ)
      (approx : ApproxTuple) (limit : LimitOrderTuple)
  | addLiquiditySingleToken (receiver market : String) (minLpOut : ℤ)
      (approx : ApproxTuple) (tokenInput : TokenInputTuple) (limit : LimitOrderTuple)
  | removeLiquidityDualSyAndPt (receiver market : String) (netLpToRemove minSyOut minPtOut : ℤ)
  | removeLiquiditySingleSy (receiver market : String) (netLpToRemove minSyOut : ℤ)
      (limit : LimitOrderTuple)
  | removeLiquiditySingleToken (receiver market : String) (netLpToRemove : ℤ)
      (tokenOutput : TokenOutputTuple) (limit : LimitOrderTuple)
  | mintPyFromSy (receiver ytAddress : String) (netSyIn : ℤ)
  | redeemPyToSy (receiver ytAddress : String) (netPyIn : ℤ)

structure BuiltTx where
  call : RouterCall
  fromAddress : String
  gas : ℕ
  gasPrice : ℕ

inductive NetEvent where
  | gasPriceFetch
  | sendRawTransaction (tx : BuiltTx)
  | waitForReceipt
  | httpGet (url : String) (params : List (String × PyVal))
  | httpPost (url : String) (body : PyVal)

/-- What the chain does if the operation reaches submission. -/
inductive ChainOutcome where
  | confirmed (txHash : String) (gasUsed blockNumber : ℕ)
  | revert (msg : String)

structure ChainEnv where
  contractAvailable : Bool
  gasPrice : ℕ
  walletAddress : String
  outcome : ChainOutcome

/-- src/pendle.py `check_contract_or_return_error`: the structured
    unavailable-result dict. -/
def contract_unavailable_dict : PyVal :=
  .dict [("error", .str "Pendle contracts not deployed on Arbitrum Sepolia yet"),
         ("network", .str "Arbitrum Sepolia"),
         ("suggestion", .str "Try Ethereum Mainnet for full functionality")]

/- The message of the AttributeError raised when an operation dereferences
   `pendle_contract.functions` while `pendle_contract` is None.  CPython
   renders the class and attribute names in single quotes around NoneType
   and functions; the exact rendering is immaterial to classification. -/
def none_type_attribute_msg : String :=
  "NoneType object has no attribute functions"

/-- The success record each executor returns after confirmation. -/
def transaction_success_dict (txHash : String) (gasUsed blockNumber : ℕ) : PyVal :=
  .dict [("status", .str "success"),
         ("transaction_hash", .str txHash),
         ("gas_used", .num (gasUsed : ℚ)),
         ("block_number", .num (blockNumber : ℚ))]

/-- The shared build/sign/submit/await tail of every executor body: fetch the
    gas price, sign locally, submit, and wait for the receipt; a failure is
    routed through `handle_contract_error`. -/
def submit_via_router (env : ChainEnv) (call : RouterCall) (gas : ℕ) :
    Except PyExc PyVal × List NetEvent :=
  let tx : BuiltTx := ⟨call, env.walletAddress, gas, env.gasPrice⟩
  match env.outcome with
  | .confirmed h g b =>
      (.ok (transaction_success_dict h g b),
       [.gasPriceFetch, .sendRawTransaction tx, .waitForReceipt])
  | .revert m =>
      (.error (handle_contract_error m), [.gasPriceFetch, .sendRawTransaction tx])

/-- src/pendle.py `add_liquidity_dual_sy_and_pt` (checks the contract first). -/
def add_liquidity_dual_sy_and_pt (env : ChainEnv) (receiver market : String)
    (net_sy_desired net_pt_desired min_lp_out : ℤ) :
    Except PyExc PyVal × List NetEvent :=
  match env.contractAvailable with
  | false => (.ok contract_unavailable_dict, [])
  | true =>
      submit_via_router env
        (.addLiquidityDualSyAndPt receiver market net_sy_desired net_pt_desired min_lp_out)
        500000

/-- src/pendle.py `add_liquidity_single_sy` (checks the contract first). -/
def add_liquidity_single_sy (env : ChainEnv) (receiver market : String)
    (net_sy_in min_lp_out : ℤ) (guess_pt_received_from_sy : ApproxParams) :
    Except PyExc PyVal × List NetEvent :=
  match env.contractAvailable with
  | false => (.ok contract_unavailable_dict, [])
  | true =>
      submit_via_router env
        (.addLiquiditySingleSy receiver market net_sy_in min_lp_out
          (approx_params_tuple guess_pt_received_from_sy) empty_limit_order_data)
        500000

/-- src/pendle.py `add_liquidity_single_token`: performs no contract check;
    with a null binding the attribute access raises inside the try block and
    is routed through the classifier before any network call. -/
def add_liquidity_single_token (env : ChainEnv) (receiver market : String)
    (min_lp_out : ℤ) (guess_pt_received_from_sy : ApproxParams)
    (token_input : TokenInput) : Except PyExc PyVal × List NetEvent :=
  match env.contractAvailable with
  | false => (.error (handle_contract_error none_type_attribute_msg), [])
  | true =>
      submit_via_router env
        (.addLiquiditySingleToken receiver market min_lp_out
          (approx_params_tuple guess_pt_received_from_sy)
          (token_input_tuple token_input) empty_limit_order_data)
        500000

/-- src/pendle.py `remove_liquidity_dual_sy_and_pt`: no contract check. -/
def remove_liquidity_dual_sy_and_pt (env : ChainEnv) (receiver market : String)
    (net_lp_to_remove min_sy_out min_pt_out : ℤ) :
    Except PyExc PyVal × List NetEvent :=
  match env.contractAvailable with
  | false => (.error (handle_contract_error none_type_attribute_msg), [])
  | true =>
      submit_via_router env
        (.removeLiquidityDualSyAndPt receiver market net_lp_to_remove min_sy_out min_pt_out)
        500000

/-- src/pendle.py `remove_liquidity_single_sy`: no contract check. -/
def remove_liquidity_single_sy (env : ChainEnv) (receiver market : String)
    (net_lp_to_remove min_sy_out : ℤ) : Except PyExc PyVal × List NetEvent :=
  match env.contractAvailable with
  | false => (.error (handle_contract_error none_type_attribute_msg), [])
  | true =>
      submit_via_router env
        (.removeLiquiditySingleSy receiver market net_lp_to_remove min_sy_out
          empty_limit_order_data)
        500000

/-- src/pendle.py `remove_liquidity_single_token`: no contract check. -/
def remove_liquidity_single_token (env : ChainEnv) (receiver market : String)
    (net_lp_to_remove : ℤ) (token_output : TokenOutput) :
    Except PyExc PyVal × List NetEvent :=
  match env.contractAvailable with
  | false => (.error (handle_contract_error none_type_attribute_msg), [])
  | true =>
      submit_via_router env
        (.removeLiquiditySingleToken receiver market net_lp_to_remove
          (token_output_tuple token_output) empty_limit_order_data)
        500000

/-- src/pendle.py `mint_py_from_sy` (checks the contract first; gas 300000). -/
def mint_py_from_sy (env : ChainEnv) (receiver yt_address : String)
    (net_sy_in : ℤ) : Except PyExc PyVal × List NetEvent :=
  match env.contractAvailable with
  | false => (.ok contract_unavailable_dict, [])
  | true =>
      submit_via_router env (.mintPyFromSy receiver yt_address net_sy_in) 300000

/-- src/pendle.py `redeem_py_to_sy`: no contract check; gas 300000. -/
def redeem_py_to_sy (env : ChainEnv) (receiver yt_address : String)
    (net_py_in : ℤ) : Except PyExc PyVal × List NetEvent :=
  match env.contractAvailable with
  | false => (.error (handle_contract_error none_type_attribute_msg), [])
  | true =>
      submit_via_router env (.redeemPyToSy receiver yt_address net_py_in) 300000

/- ===== Hosted Market Client (src/pendle_api_client.py) ===== -/

/-- Rendering of a number by json.dumps.  The parameter dicts the repository
    passes to its cached analytics fetches contain only integers and strings,
    so only the integral case is exercised; a non-integral rational is
    rendered as a fraction marker that no Python output collides with. -/
def json_render_num (q : ℚ) : String :=
  if q.den = 1 then toString q.num
  else toString q.num ++ "/" ++ toString q.den

def json_escape_char (c : Char) : String :=
  if c.toNat = 34 then "\\\""
  else if c.toNat = 92 then "\\\\"
  else String.singleton c

def json_quote (s : String) : String :=
  "\"" ++ String.join (s.data.map json_escape_char) ++ "\""

def entry_le (a b : String × String) : Bool :=
  a.1 ≤ b.1

/-- The sorted-keys ordering `json.dumps(..., sort_keys=True)` applies to the
    entries of every dict (keys compare as Python strings, i.e. by code
    point, which is exactly the String order used here). -/
def sort_entries (l : List (String × String)) : List (String × String) :=
  l.mergeSort entry_le

mutual

/-- `json.dumps(v, sort_keys=True)` with the default separators. -/
def json_dumps : PyVal → String
  | .none => "null"
  | .bool b => if b then "true" else "false"
  | .num q => json_render_num q
  | .str s => json_quote s
  | .list l => "[" ++ json_dumps_items l ++ "]"
  | .dict d =>
      "\x7b" ++
        String.intercalate ", "
          ((sort_entries (json_dumps_entries d)).map
            (fun kv => json_quote kv.1 ++ ": " ++ kv.2)) ++
      "\x7d"

def json_dumps_items : List PyVal → String
  | [] => ""
  | [v] => json_dumps v
  | v :: w :: rest => json_dumps v ++ ", " ++ json_dumps_items (w :: rest)

def json_dumps_entries : List (String × PyVal) → List (String × String)
  | [] => []
  | (k, v) :: rest => (k, json_dumps v) :: json_dumps_entries rest

end

/-- `OptimizedPendleClient._get_cache_key`. -/
def get_cache_key (endpoint : String) (params : List (String × PyVal)) : String :=
  endpoint ++ ":" ++ json_dumps (.dict params)

/- The in-memory cache `self._cache`: a dict from key to (data, timestamp).
   Timestamps are the values of time.time(), modelled as rationals. -/
abbrev Cache := List (String × PyVal × ℚ)

def cache_ttl : ℚ := 60

def cacheLookup : Cache → String → Option (PyVal × ℚ)
  | [], _ => Option.none
  | (k, d, t) :: rest, key => if k = key then some (d, t) else cacheLookup rest key

/-- `OptimizedPendleClient._get_cached`. -/
def get_cached (cache : Cache) (now : ℚ) (key : String) : Option PyVal :=
  match cacheLookup cache key with
  | some (data, timestamp) =>
      if now - timestamp < cache_ttl then some data else Option.none
  | Option.none => Option.none

/-- `OptimizedPendleClient._set_cache`: dict assignment, overwriting any
    existing entry for the key. -/
def set_cache : Cache → String → PyVal → ℚ → Cache
  | [], key, data, now => [(key, data, now)]
  | (k, d, t) :: rest, key, data, now =>
      if k = key then (key, data, now) :: rest
      else (k, d, t) :: set_cache rest key data now

/-- Outcome of one HTTP request: a response with a status and (when the body
    parses as JSON) a payload, or a network-level failure. -/
inductive HttpOutcome where
  | response (status : ℕ) (body : Option PyVal)
  | netError (msg : String)

def is2xx (status : ℕ) : Bool :=
  200 ≤ status && status < 300

def raise_for_status_exc (status : ℕ) : PyExc :=
  ⟨.httpStatusError, "HTTP status " ++ toString status⟩

structure FetchResult where
  result : Except PyExc PyVal
  cache : Cache
  events : List NetEvent

/-- The cache-miss tail of `_fetch_with_cache`: issue the GET, raise for
    status, parse, and store the payload (overwriting unconditionally). -/
def fetch_fresh (cache : Cache) (now : ℚ) (endpoint : String)
    (params : List (String × PyVal)) (cache_key : String)
    (upstream : HttpOutcome) : FetchResult :=
  match upstream with
  | .netError m => ⟨.error ⟨.transportError, m⟩, cache, [.httpGet endpoint params]⟩
  | .response status body =>
      if is2xx status then
        match body with
        | Option.none =>
            ⟨.error ⟨.jsonDecodeError, "Expecting value"⟩, cache, [.httpGet endpoint params]⟩
        | some data =>
            ⟨.ok data, set_cache cache cache_key data now, [.httpGet endpoint params]⟩
      else ⟨.error (raise_for_status_exc status), cache, [.httpGet endpoint params]⟩

/-- `OptimizedPendleClient._fetch_with_cache`: note that the cached value is
    tested by Python truthiness (`if cached:`), and that a fresh fetch
    overwrites the cache entry unconditionally. -/
def fetch_with_cache (cache : Cache) (now : ℚ) (endpoint : String)
    (params : List (String × PyVal)) (upstream : HttpOutcome) : FetchResult :=
  let cache_key := get_cache_key endpoint params
  match get_cached cache now cache_key with
  | some cached =>
      if truthy cached then ⟨.ok cached, cache, []⟩
      else fetch_fresh cache now endpoint params cache_key upstream
  | Option.none => fetch_fresh cache now endpoint params cache_key upstream

/- ===== Hosted conversion endpoints ===== -/

def convert_base_url : String :=
  "https://api.pendle.finance/convert/v1"

/-- `v.get(key, dflt)` on a JSON value: raises AttributeError when `v` is not
    a dict (as the source would when response.json() is not an object). -/
def pyGetAttr (v : PyVal) (key : String) (dflt : PyVal) : Except PyExc PyVal :=
  match v with
  | .dict d => .ok ((dictGet d key).getD dflt)
  | _ => .error ⟨.attributeError, "object has no attribute get"⟩

/-- `v.get(key, dflt) * 100`-style numeric extraction: the value must be a
    number (Python bool counts as an int); any other present value makes the
    arithmetic or the format specifier raise. -/
def pyGetNum (v : PyVal) (key : String) (dflt : ℚ) : Except PyExc ℚ :=
  match v with
  | .dict d =>
      match dictGet d key with
      | Option.none => .ok dflt
      | some (.num q) => .ok q
      | some (.bool b) => .ok (if b then 1 else 0)
      | some _ => .error ⟨.typeError, "unsupported operand type"⟩
  | _ => .error ⟨.attributeError, "object has no attribute get"⟩

/-- Python `a or b`. -/
def pyOr (a b : PyVal) : PyVal :=
  if truthy a then a else b

/-- The try-block body of `OptimizedPendleClient.convert_swap`: POST, raise
    for status, parse, and normalize the response. -/
def convert_swap_attempt (out : HttpOutcome) : Except PyExc PyVal :=
  match out with
  | .netError m => .error ⟨.transportError, m⟩
  | .response status body =>
      if is2xx status then
        match body with
        | Option.none => .error ⟨.jsonDecodeError, "Expecting value"⟩
        | some d => do
            let toAddr ← pyGetAttr d "to" .none
            let dataField ← pyGetAttr d "data" .none
            let valueField ← pyGetAttr d "value" .none
            let amountOut ← pyGetAttr d "amountOut" .none
            let priceImpact ← pyGetNum d "priceImpact" 0
            let minAmountOut ← pyGetAttr d "minAmountOut" .none
            let gasField ← pyGetAttr d "gas" .none
            .ok (.dict
              [("transaction", .dict [("to", toAddr), ("data", dataField), ("value", valueField)]),
               ("amountOut", amountOut),
               ("priceImpact", .str (formatFixed 4 (priceImpact * 100) ++ "%")),
               ("minAmountOut", minAmountOut),
               ("gas", gasField)])
      else .error (raise_for_status_exc status)

/-- The hard-coded placeholder returned by `convert_swap` when anything in
    the try block fails. -/
def mock_swap_transaction_data : PyVal :=
  .dict [("transaction", .dict
            [("to", .str "0x1234567890123456789012345678901234567890"),
             ("data", .str "0x1234567890abcdef1234567890abcdef1234567890abcdef1234567890abcdef"),
             ("value", .str "0x0")]),
         ("amountOut", .str "1000000000000000000"),
         ("priceImpact", .str "0.15%"),
         ("minAmountOut", .str "995000000000000000"),
         ("gas", .str "150000")]

/-- `OptimizedPendleClient.convert_swap`. -/
def convert_swap (chain_id : ℕ)
    (market_address receiver token_in token_out amount_in : String)
    (out : HttpOutcome) (slippage : ℚ := 5 / 1000) : PyVal × List NetEvent :=
  let endpoint := convert_base_url ++ "/v1/" ++ toString chain_id ++
    "/markets/" ++ market_address ++ "/swap"
  let body : PyVal := .dict
    [("receiver", .str receiver), ("tokenIn", .str token_in),
     ("tokenOut", .str token_out), ("amountIn", .str amount_in),
     ("slippage", .num slippage)]
  match convert_swap_attempt out with
  | .ok result => (result, [.httpPost endpoint body])
  | .error _ => (mock_swap_transaction_data, [.httpPost endpoint body])

/-- The try-block body of `OptimizedPendleClient.convert_add_liquidity_zpi`:
    the priceImpact output field is the fixed literal, not a formatted wire
    value. -/
def convert_add_liquidity_zpi_attempt (out : HttpOutcome) : Except PyExc PyVal :=
  match out with
  | .netError m => .error ⟨.transportError, m⟩
  | .response status body =>
      if is2xx status then
        match body with
        | Option.none => .error ⟨.jsonDecodeError, "Expecting value"⟩
        | some d => do
            let toAddr ← pyGetAttr d "to" .none
            let dataField ← pyGetAttr d "data" .none
            let valueField ← pyGetAttr d "value" .none
            let amountLpOut ← pyGetAttr d "amountLpOut" .none
            let gasField ← pyGetAttr d "gas" .none
            .ok (.dict
              [("transaction", .dict [("to", toAddr), ("data", dataField), ("value", valueField)]),
               ("amountLpOut", amountLpOut),
               ("priceImpact", .str "~0% (ZPI)"),
               ("gas", gasField)])
      else .error (raise_for_status_exc status)

/-- The hard-coded placeholder returned by `convert_add_liquidity_zpi` when
    anything in the try block fails. -/
def mock_zpi_transaction_data : PyVal :=
  .dict [("transaction", .dict
            [("to", .str "0x1234567890123456789012345678901234567890"),
             ("data", .str "0xabcdef1234567890abcdef1234567890abcdef1234567890abcdef1234567890"),
             ("value", .str "0x0")]),
         ("amountLpOut", .str "2000000000000000000"),
         ("priceImpact", .str "~0% (ZPI)"),
         ("gas", .str "180000")]

/-- `OptimizedPendleClient.convert_add_liquidity_zpi`. -/
def convert_add_liquidity_zpi (chain_id : ℕ)
    (market_address receiver token_in amount_in : String)
    (out : HttpOutcome) (slippage : ℚ := 5 / 1000) : PyVal × List NetEvent :=
  let endpoint := convert_base_url ++ "/v1/" ++ toString chain_id ++
    "/markets/" ++ market_address ++ "/add-liquidity-zpi"
  let body : PyVal := .dict
    [("receiver", .str receiver), ("tokenIn", .str token_in),
     ("amountIn", .str amount_in), ("slippage", .num slippage)]
  match convert_add_liquidity_zpi_attempt out with
  | .ok result => (result, [.httpPost endpoint body])
  | .error _ => (mock_zpi_transaction_data, [.httpPost endpoint body])

/- ===== Batch Aggregator (src/pendle_api_client.py get_markets_batch) ===== -/

/-- `OptimizedPendleClient.get_chain_name`. -/
def get_chain_name (chain_id : ℕ) : String :=
  if chain_id = 1 then "Ethereum"
  else if chain_id = 42161 then "Arbitrum"
  else if chain_id = 10 then "Optimism"
  else if chain_id = 56 then "BSC"
  else if chain_id = 5000 then "Mantle"
  else "Chain " ++ toString chain_id

/-- Normalization of one upstream market record inside the batch loop. -/
def normalize_market (chain_id : ℕ) (m : PyVal) : Except PyExc PyVal := do
  let addr ← pyGetAttr m "address" (.str (hex040 chain_id))
  let nameField ← pyGetAttr m "name" .none
  let symbolField ← pyGetAttr m "symbol" .none
  let impliedApy ← pyGetNum m "impliedApy" (8 / 100)
  let aggregatedApy ← pyGetNum m "aggregatedApy" (12 / 100)
  let liquidity ← pyGetNum m "liquidity" 1500000
  .ok (.dict
    [("address", addr),
     ("name", pyOr nameField (pyOr symbolField (.str ("Market-" ++ toString chain_id)))),
     ("chain", .str (get_chain_name chain_id)),
     ("chainId", .num (chain_id : ℚ)),
     ("impliedAPY", .str (formatFixed 2 (impliedApy * 100) ++ "%")),
     ("lpAPY", .str (formatFixed 2 (aggregatedApy * 100) ++ "%")),
     ("liquidity", .str ("$" ++ formatFixed 2 (liquidity / 1000000) ++ "M"))])

/-- `result.get("results", result) if isinstance(result, dict) else result`. -/
def extract_markets (result : PyVal) : PyVal :=
  match result with
  | .dict d => (dictGet d "results").getD (.dict d)
  | v => v

/-- The records one successful chain contributes: the first `limit` entries
    of its market list, normalized; a non-list payload contributes nothing. -/
def chain_records (chain_id : ℕ) (limit : ℕ) (result : PyVal) :
    Except PyExc (List PyVal) :=
  match extract_markets result with
  | .list ms => (ms.take limit).mapM (normalize_market chain_id)
  | _ => .ok []

/-- The loop over `zip(chain_ids, results)`: a chain whose upstream call
    raised is skipped; an exception during normalization escapes to the
    outer handler. -/
def markets_loop (limit : ℕ) (acc : List PyVal) :
    List (ℕ × Except PyExc PyVal) → Except PyExc (List PyVal)
  | [] => .ok acc
  | (cid, res) :: rest =>
      match res with
      | .error _ => markets_loop limit acc rest
      | .ok r =>
          match chain_records cid limit r with
          | .error e => .error e
          | .ok recs => markets_loop limit (acc ++ recs) rest

/-- `OptimizedPendleClient._get_mock_markets`: two fabricated records per
    chain. -/
def mock_markets_for_chain (chain_id : ℕ) : List PyVal :=
  [.dict [("address", .str (hex040 chain_id)),
          ("name", .str ("USDC-PT-" ++ get_chain_name chain_id)),
          ("chain", .str (get_chain_name chain_id)),
          ("chainId", .num (chain_id : ℚ)),
          ("impliedAPY", .str "8.5%"),
          ("lpAPY", .str "12.3%"),
          ("liquidity", .str "$1.5M")],
   .dict [("address", .str (hex040 chain_id ++ "1")),
          ("name", .str ("ETH-PT-" ++ get_chain_name chain_id)),
          ("chain", .str (get_chain_name chain_id)),
          ("chainId", .num (chain_id : ℚ)),
          ("impliedAPY", .str "10.2%"),
          ("lpAPY", .str "15.7%"),
          ("liquidity", .str "$2.1M")]]

def get_mock_markets (chain_ids : List ℕ) (limit : ℕ) : PyVal :=
  .dict [("markets", .list ((chain_ids.flatMap mock_markets_for_chain).take (limit * chain_ids.length))),
         ("totalChains", .num (chain_ids.length : ℚ))]

/-- `OptimizedPendleClient.get_markets_batch`: the upstream oracle gives, per
    chain id, the outcome of `_try_multiple_endpoints` (a parsed payload or
    the exception it raised).  The outer try/except and the empty-result
    check both fall back to the mock markets. -/
def get_markets_batch (chain_ids : List ℕ) (upstream : ℕ → Except PyExc PyVal)
    (limit : ℕ := 20) : PyVal :=
  match markets_loop limit [] (chain_ids.map (fun cid => (cid, upstream cid))) with
  | .error _ => get_mock_markets chain_ids limit
  | .ok [] => get_mock_markets chain_ids limit
  | .ok all_markets =>
      .dict [("markets", .list all_markets),
             ("totalChains", .num (chain_ids.length : ℚ))]

/-- Compositional description of one chain contribution, used to state the
    amended batch property: a failed chain contributes zero records, a
    successful one contributes its normalized records. -/
def chain_contribution (limit : ℕ) (upstream : ℕ → Except PyExc PyVal)
    (cid : ℕ) : Except PyExc (List PyVal) :=
  match upstream cid with
  | .error _ => .ok []
  | .ok r => chain_records cid limit r

/-- Per-chain contributions of a list of chain ids, in caller order. -/
def chain_contribs (limit : ℕ) (upstream : ℕ → Except PyExc PyVal) :
    List ℕ → Except PyExc (List (List PyVal))
  | [] => .ok []
  | cid :: rest =>
      match chain_contribution limit upstream cid with
      | .error e => .error e
      | .ok recs =>
          match chain_contribs limit upstream rest with
          | .error e => .error e
          | .ok others => .ok (recs :: others)

/- ===== Theorems ===== -/

/-- C7: the approximation-parameter builder called with no arguments yields
    exactly guessMin = 0, guessMax = 10^18, guessOffchain = 0,
    maxIteration = 256, eps = 10^15; called with guessMin = 100,
    guessMax = 1000000, maxIteration = 128 it yields exactly
    (100, 1000000, 0, 128, 10^15), the unspecified fields taking their
    documented defaults. -/
theorem c7_create_approx_params_spec :
    create_approx_params = ⟨0, 10 ^ 18, 0, 256, 10 ^ 15⟩ ∧
    create_approx_params 100 1000000 0 128 = ⟨100, 1000000, 0, 128, 10 ^ 15⟩ :=
  ⟨rfl, rfl⟩

/-- C8 (counterexample): constructing a swap type from the out-of-range
    ordinal 9 fails with the standard ValueError of Python enum lookup, not
    with the InvalidParameters error kind. -/
theorem c8_counterexample :
    SwapType.fromOrdinal 9 = .error ⟨.valueError, "9 is not a valid SwapType"⟩ ∧
    PyExcClass.valueError ≠ PyExcClass.invalidParametersError :=
  ⟨rfl, by decide⟩

/-- C8 (amended): the swap-type enumeration maps its nine members to the
    consecutive ordinals NONE = 0 through BANCOR = 8 with no gaps (value is
    a bijection onto 0..8, and construction from a member value returns
    that member); constructing from any out-of-range ordinal fails, but
    with the standard enum ValueError rather than InvalidParameters. -/
theorem c8_swap_type_amended :
    (SwapType.value .NONE = 0 ∧ SwapType.value .KYBERSWAP = 1 ∧
     SwapType.value .ONE_INCH = 2 ∧ SwapType.value .NATIVE = 3 ∧
     SwapType.value .UNISWAPV2 = 4 ∧ SwapType.value .UNISWAPV3 = 5 ∧
     SwapType.value .CURVE = 6 ∧ SwapType.value .BALANCER = 7 ∧
     SwapType.value .BANCOR = 8) ∧
    (∀ t : SwapType, SwapType.fromOrdinal t.value = .ok t) ∧
    (∀ n : ℕ, 8 < n →
      SwapType.fromOrdinal n =
        .error ⟨.valueError, toString n ++ " is not a valid SwapType"⟩) := by
  refine ⟨by decide, fun t => by cases t <;> rfl, fun n hn => ?_⟩
  obtain ⟨m, rfl⟩ : ∃ m, n = m + 9 := ⟨n - 9, by omega⟩
  rfl

/-- C8 (witness): the out-of-range branch evaluated at 57. -/
theorem c8_swap_type_witness :
    8 < 57 ∧
    SwapType.fromOrdinal 57 =
      .error ⟨.valueError, toString 57 ++ " is not a valid SwapType"⟩ :=
  ⟨by decide, c8_swap_type_amended.2.2 57 (by decide)⟩

/-- C3 (counterexample): the exchange-rate-below-one and proportion-too-high
    messages are classified into the same exception class as the generic
    fallthrough (the base PendleError, the ProtocolError of the taxonomy),
    distinguished only by message, so they do not map to correspondingly
    named error kinds the way MarketExpired does. -/
theorem c3_counterexample :
    (handle_contract_error "MarketExchangeRateBelowOne").cls = PyExcClass.pendleError ∧
    (handle_contract_error "MarketProportionTooHigh").cls = PyExcClass.pendleError ∧
    (handle_contract_error "execution reverted: unknown").cls = PyExcClass.pendleError ∧
    (handle_contract_error "MarketExpired").cls = PyExcClass.marketExpiredError :=
  ⟨rfl, rfl, rfl, rfl⟩

/-- C3 (amended): the classifier is total and deterministic, testing the
    five known substrings in order: MarketExpired yields the named
    MarketExpiredError, the two zero-amount substrings yield the named
    InvalidParametersError, while MarketExchangeRateBelowOne and
    MarketProportionTooHigh yield the base PendleError class carrying their
    fixed messages, and every other message yields the base PendleError
    wrapping the original message; no input escapes unclassified. -/
theorem c3_classifier_amended (error_msg : String) :
    (strContains "MarketExpired" error_msg = true →
      handle_contract_error error_msg = ⟨.marketExpiredError, "Market has expired"⟩) ∧
    (strContains "MarketExpired" error_msg = false →
     strContains "MarketExchangeRateBelowOne" error_msg = true →
      handle_contract_error error_msg = ⟨.pendleError, "Market exchange rate is below one"⟩) ∧
    (strContains "MarketExpired" error_msg = false →
     strContains "MarketExchangeRateBelowOne" error_msg = false →
     strContains "MarketProportionTooHigh" error_msg = true →
      handle_contract_error error_msg = ⟨.pendleError, "Market proportion is too high"⟩) ∧
    (strContains "MarketExpired" error_msg = false →
     strContains "MarketExchangeRateBelowOne" error_msg = false →
     strContains "MarketProportionTooHigh" error_msg = false →
     strContains "MarketZeroAmountsInput" error_msg = true →
      handle_contract_error error_msg = ⟨.invalidParametersError, "Zero amounts provided for input"⟩) ∧
    (strContains "MarketExpired" error_msg = false →
     strContains "MarketExchangeRateBelowOne" error_msg = false →
     strContains "MarketProportionTooHigh" error_msg = false →
     strContains "MarketZeroAmountsInput" error_msg = false →
     strContains "MarketZeroAmountsOutput" error_msg = true →
      handle_contract_error error_msg = ⟨.invalidParametersError, "Zero amounts provided for output"⟩) ∧
    (strContains "MarketExpired" error_msg = false →
     strContains "MarketExchangeRateBelowOne" error_msg = false →
     strContains "MarketProportionTooHigh" error_msg = false →
     strContains "MarketZeroAmountsInput" error_msg = false →
     strContains "MarketZeroAmountsOutput" error_msg = false →
      handle_contract_error error_msg = ⟨.pendleError, "Contract error: " ++ error_msg⟩) := by
  refine ⟨fun h1 => ?_, fun h1 h2 => ?_, fun h1 h2 h3 => ?_,
          fun h1 h2 h3 h4 => ?_, fun h1 h2 h3 h4 h5 => ?_,
          fun h1 h2 h3 h4 h5 => ?_⟩ <;>
    simp only [handle_contract_error] <;>
    simp [*]

/-- C3 (witness): Scenario B, a message containing MarketZeroAmountsInput is
    classified as the named InvalidParametersError with the fixed message. -/
theorem c3_classifier_witness :
    strContains "MarketZeroAmountsInput" "MarketZeroAmountsInput" = true ∧
    handle_contract_error "MarketZeroAmountsInput" =
      ⟨.invalidParametersError, "Zero amounts provided for input"⟩ :=
  ⟨rfl, (c3_classifier_amended "MarketZeroAmountsInput").2.2.2.1 rfl rfl rfl rfl⟩

/-- C1: evaluating the hosted swap conversion at an HTTP 500 response.  The
    try-block body raises on the status, but the function catches every
    failure and returns the hard-coded placeholder transaction payload (and
    the ZPI add-liquidity variant behaves the same), instead of propagating
    a TransportError with no payload as the specification requires. -/
theorem c1_convert_swap_mock_on_failure :
    convert_swap_attempt (.response 500 (some (.dict []))) =
      .error (raise_for_status_exc 500) ∧
    (convert_swap 1 "0xmarket" "0xreceiver" "0xin" "0xout" "1000000"
        (.response 500 (some (.dict [])))).1 = mock_swap_transaction_data ∧
    pyField mock_swap_transaction_data "transaction" ≠ Option.none ∧
    convert_add_liquidity_zpi_attempt (.response 500 (some (.dict []))) =
      .error (raise_for_status_exc 500) ∧
    (convert_add_liquidity_zpi 1 "0xmarket" "0xreceiver" "0xin" "1000000"
        (.response 500 (some (.dict [])))).1 = mock_zpi_transaction_data := by
  refine ⟨rfl, rfl, ?_, rfl, rfl⟩
  simp [pyField, mock_swap_transaction_data, dictGet]

/-- C2 (counterexample): with the router binding null,
    remove_liquidity_single_token raises a classified error (the generic
    PendleError wrapping the attribute-access failure) instead of returning
    the structured unavailable-result dictionary. -/
theorem c2_counterexample :
    remove_liquidity_single_token ⟨false, 0, "0xwallet", .revert ""⟩
        "0xreceiver" "0xmarket" 1000
        (create_token_output "0xtok" 0 "0xsy" "0xswap" (create_swap_data .NONE)) =
      (.error ⟨.pendleError, "Contract error: " ++ none_type_attribute_msg⟩, []) ∧
    (Except.error ⟨PyExcClass.pendleError, "Contract error: " ++ none_type_attribute_msg⟩ :
        Except PyExc PyVal) ≠ .ok contract_unavailable_dict := by
  refine ⟨rfl, fun h => Except.noConfusion h⟩

/-- C2 (amended): with a null router binding every one of the eight
    direct-chain operations issues zero network calls, but only the three
    operations that run the contract check (dual add-liquidity, single-SY
    add-liquidity, mint-PY-from-SY) return the structured unavailable
    dictionary; the other five raise the classified generic PendleError
    produced by the attribute access on the null binding. -/
theorem c2_unavailable_amended (env : ChainEnv)
    (h : env.contractAvailable = false)
    (receiver market yt : String) (a1 a2 a3 : ℤ) (ap : ApproxParams)
    (ti : TokenInput) (tou : TokenOutput) :
    add_liquidity_dual_sy_and_pt env receiver market a1 a2 a3 =
      (.ok contract_unavailable_dict, []) ∧
    add_liquidity_single_sy env receiver market a1 a2 ap =
      (.ok contract_unavailable_dict, []) ∧
    mint_py_from_sy env receiver yt a1 = (.ok contract_unavailable_dict, []) ∧
    add_liquidity_single_token env receiver market a1 ap ti =
      (.error (handle_contract_error none_type_attribute_msg), []) ∧
    remove_liquidity_dual_sy_and_pt env receiver market a1 a2 a3 =
      (.error (handle_contract_error none_type_attribute_msg), []) ∧
    remove_liquidity_single_sy env receiver market a1 a2 =
      (.error (handle_contract_error none_type_attribute_msg), []) ∧
    remove_liquidity_single_token env receiver market a1 tou =
      (.error (handle_contract_error none_type_attribute_msg), []) ∧
    redeem_py_to_sy env receiver yt a1 =
      (.error (handle_contract_error none_type_attribute_msg), []) ∧
    handle_contract_error none_type_attribute_msg =
      ⟨.pendleError, "Contract error: " ++ none_type_attribute_msg⟩ := by
  refine ⟨?_, ?_, ?_, ?_, ?_, ?_, ?_, ?_, rfl⟩ <;>
    simp only [add_liquidity_dual_sy_and_pt, add_liquidity_single_sy,
      mint_py_from_sy, add_liquidity_single_token,
      remove_liquidity_dual_sy_and_pt, remove_liquidity_single_sy,
      remove_liquidity_single_token, redeem_py_to_sy, h]

/-- C2 (witness): the amended statement applied to a concrete null-binding
    environment. -/
theorem c2_unavailable_witness :
    (⟨false, 0, "0xw", .revert ""⟩ : ChainEnv).contractAvailable = false ∧
    add_liquidity_dual_sy_and_pt ⟨false, 0, "0xw", .revert ""⟩ "0xr" "0xm" 1 2 3 =
      (.ok contract_unavailable_dict, []) :=
  ⟨rfl,
   (c2_unavailable_amended ⟨false, 0, "0xw", .revert ""⟩ rfl "0xr" "0xm" "0xy"
      1 2 3 ⟨0, 0, 0, 0, 0⟩
      ⟨"", 0, "", "", ⟨.NONE, "", [], false⟩⟩
      ⟨"", 0, "", "", ⟨.NONE, "", [], false⟩⟩).1⟩

/-- Helper: the cache-miss tail always issues exactly one GET. -/
theorem fetch_fresh_events (cache : Cache) (now : ℚ) (endpoint : String)
    (params : List (String × PyVal)) (key : String) (up : HttpOutcome) :
    (fetch_fresh cache now endpoint params key up).events =
      [.httpGet endpoint params] := by
  cases up with
  | netError m => rfl
  | response status body =>
      simp only [fetch_fresh]
      split
      · cases body <;> rfl
      · rfl

/-- Helper: looking up the key of a one-entry cache. -/
theorem cacheLookup_single (K : String) (d : PyVal) (t : ℚ) :
    cacheLookup [(K, d, t)] K = some (d, t) := by
  simp [cacheLookup]

/-- C5 (amended): for a cached entry under the looked-up key, a read at age
    strictly below 60 seconds returns the stored payload verbatim with no
    upstream call provided the payload is truthy (a falsy payload is treated
    as a miss, see the companion falsy-payload theorem); a read at age 60
    seconds or more always performs the upstream fetch and, when it
    succeeds, unconditionally overwrites the cache entry with the fresh
    payload (last write wins). -/
theorem c5_cache_ttl_amended (cache : Cache) (now t0 : ℚ) (endpoint : String)
    (params : List (String × PyVal)) (d fresh : PyVal)
    (hentry : cacheLookup cache (get_cache_key endpoint params) = some (d, t0)) :
    (now - t0 < 60 → truthy d = true →
      fetch_with_cache cache now endpoint params (.response 200 (some fresh)) =
        ⟨.ok d, cache, []⟩) ∧
    (60 ≤ now - t0 →
      ∀ up, (fetch_with_cache cache now endpoint params up).events =
        [.httpGet endpoint params]) ∧
    (60 ≤ now - t0 →
      fetch_with_cache cache now endpoint params (.response 200 (some fresh)) =
        ⟨.ok fresh, set_cache cache (get_cache_key endpoint params) fresh now,
         [.httpGet endpoint params]⟩) := by
  refine ⟨fun hage htr => ?_, fun hage up => ?_, fun hage => ?_⟩
  · have hkey : get_cached cache now (get_cache_key endpoint params) = some d := by
      simp [get_cached, hentry, cache_ttl, hage]
    simp [fetch_with_cache, hkey, htr]
  · have hkey : get_cached cache now (get_cache_key endpoint params) = Option.none := by
      simp only [get_cached, hentry, cache_ttl]
      rw [if_neg (not_lt.mpr hage)]
    simp [fetch_with_cache, hkey, fetch_fresh_events]
  · have hkey : get_cached cache now (get_cache_key endpoint params) = Option.none := by
      simp only [get_cached, hentry, cache_ttl]
      rw [if_neg (not_lt.mpr hage)]
    simp [fetch_with_cache, hkey, fetch_fresh, is2xx]

/-- C5 (counterexample): a falsy payload (the empty dict) cached at age 0,
    well inside the TTL, is nevertheless treated as a miss: the read issues
    an upstream call and returns the fresh payload, not the stored one. -/
theorem c5_counterexample :
    (fetch_with_cache [(get_cache_key "ep" [], PyVal.dict [], 0)] 0 "ep" []
        (.response 200 (some (PyVal.dict [("k", PyVal.num 1)])))).events =
      [NetEvent.httpGet "ep" []] ∧
    (fetch_with_cache [(get_cache_key "ep" [], PyVal.dict [], 0)] 0 "ep" []
        (.response 200 (some (PyVal.dict [("k", PyVal.num 1)])))).result =
      .ok (PyVal.dict [("k", PyVal.num 1)]) ∧
    (0 : ℚ) - 0 < 60 ∧
    ([NetEvent.httpGet "ep" []] : List NetEvent) ≠ [] := by
  have hkey : get_cached [(get_cache_key "ep" [], PyVal.dict [], 0)] 0
      (get_cache_key "ep" []) = some (PyVal.dict []) := by
    simp only [get_cached, cacheLookup_single, cache_ttl]
    rw [if_pos (by norm_num)]
  have hfull : fetch_with_cache [(get_cache_key "ep" [], PyVal.dict [], 0)] 0 "ep" []
      (.response 200 (some (PyVal.dict [("k", PyVal.num 1)]))) =
      ⟨.ok (PyVal.dict [("k", PyVal.num 1)]),
       set_cache [(get_cache_key "ep" [], PyVal.dict [], 0)] (get_cache_key "ep" [])
         (PyVal.dict [("k", PyVal.num 1)]) 0,
       [.httpGet "ep" []]⟩ := by
    simp only [fetch_with_cache, hkey]
    simp [truthy, fetch_fresh, is2xx]
  exact ⟨by rw [hfull], by rw [hfull], by norm_num, by simp⟩

/-- C5 (witness): the amended statement applied to a one-entry cache, once
    at age 59 (hit) and once at age 60 (miss and overwrite). -/
theorem c5_cache_ttl_witness :
    cacheLookup [(get_cache_key "ep" [], PyVal.str "v", 0)] (get_cache_key "ep" []) =
      some (PyVal.str "v", 0) ∧
    (59 : ℚ) - 0 < 60 ∧ truthy (PyVal.str "v") = true ∧
    fetch_with_cache [(get_cache_key "ep" [], PyVal.str "v", 0)] 59 "ep" []
        (.response 200 (some (PyVal.str "w"))) =
      ⟨.ok (PyVal.str "v"), [(get_cache_key "ep" [], PyVal.str "v", 0)], []⟩ ∧
    (60 : ℚ) ≤ 60 - 0 ∧
    fetch_with_cache [(get_cache_key "ep" [], PyVal.str "v", 0)] 60 "ep" []
        (.response 200 (some (PyVal.str "w"))) =
      ⟨.ok (PyVal.str "w"),
       set_cache [(get_cache_key "ep" [], PyVal.str "v", 0)] (get_cache_key "ep" [])
         (PyVal.str "w") 60,
       [.httpGet "ep" []]⟩ :=
  ⟨cacheLookup_single _ _ _, by norm_num, rfl,
   (c5_cache_ttl_amended _ 59 0 "ep" [] _ _ (cacheLookup_single _ _ _)).1 (by norm_num) rfl,
   by norm_num,
   (c5_cache_ttl_amended _ 60 0 "ep" [] _ _ (cacheLookup_single _ _ _)).2.2 (by norm_num)⟩

/-- C10: a cached payload that is falsy (for example an empty dict) is
    treated as a miss even inside the TTL: the lookup issues the upstream
    GET and, when the fetch succeeds, overwrites the entry; and in general
    a lookup that issues no upstream call only ever serves a truthy cached
    payload. -/
theorem c10_falsy_cache_miss (cache : Cache) (now t0 : ℚ) (endpoint : String)
    (params : List (String × PyVal)) (d fresh : PyVal)
    (hentry : cacheLookup cache (get_cache_key endpoint params) = some (d, t0))
    (hage : now - t0 < 60) (hfalsy : truthy d = false) :
    (∀ up, (fetch_with_cache cache now endpoint params up).events =
      [.httpGet endpoint params]) ∧
    fetch_with_cache cache now endpoint params (.response 200 (some fresh)) =
      ⟨.ok fresh, set_cache cache (get_cache_key endpoint params) fresh now,
       [.httpGet endpoint params]⟩ ∧
    (∀ (c : Cache) (n : ℚ) (e : String) (p : List (String × PyVal))
        (up : HttpOutcome),
      (fetch_with_cache c n e p up).events = [] →
      ∃ v, (fetch_with_cache c n e p up).result = .ok v ∧ truthy v = true) := by
  have hkey : get_cached cache now (get_cache_key endpoint params) = some d := by
    simp [get_cached, hentry, cache_ttl, hage]
  refine ⟨fun up => ?_, ?_, ?_⟩
  · simp [fetch_with_cache, hkey, hfalsy, fetch_fresh_events]
  · simp [fetch_with_cache, hkey, hfalsy, fetch_fresh, is2xx]
  · intro c n e p up hev
    cases hq : get_cached c n (get_cache_key e p) with
    | none =>
        exfalso
        have hev2 : (fetch_with_cache c n e p up).events = [.httpGet e p] := by
          simp [fetch_with_cache, hq, fetch_fresh_events]
        rw [hev2] at hev
        exact absurd hev (by simp)
    | some cached =>
        by_cases ht : truthy cached = true
        · refine ⟨cached, ?_, ht⟩
          simp [fetch_with_cache, hq, ht]
        · exfalso
          simp only [Bool.not_eq_true] at ht
          have hev2 : (fetch_with_cache c n e p up).events = [.httpGet e p] := by
            simp [fetch_with_cache, hq, ht, fetch_fresh_events]
          rw [hev2] at hev
          exact absurd hev (by simp)

/-- C10 (witness): the falsy-payload theorem applied to a one-entry cache
    holding the empty dict at age 1. -/
theorem c10_falsy_cache_miss_witness :
    cacheLookup [(get_cache_key "ep" [], PyVal.dict [], 0)] (get_cache_key "ep" []) =
      some (PyVal.dict [], 0) ∧
    (1 : ℚ) - 0 < 60 ∧ truthy (PyVal.dict []) = false ∧
    fetch_with_cache [(get_cache_key "ep" [], PyVal.dict [], 0)] 1 "ep" []
        (.response 200 (some (PyVal.str "x"))) =
      ⟨.ok (PyVal.str "x"),
       set_cache [(get_cache_key "ep" [], PyVal.dict [], 0)] (get_cache_key "ep" [])
         (PyVal.str "x") 1,
       [.httpGet "ep" []]⟩ :=
  ⟨cacheLookup_single _ _ _, by norm_num, rfl,
   (c10_falsy_cache_miss [(get_cache_key "ep" [], PyVal.dict [], 0)] 1 0 "ep" []
      (PyVal.dict []) (PyVal.str "x") (cacheLookup_single _ _ _)
      (by norm_num) rfl).2.1⟩

/-- Helper: sorting serialized entries is invariant under permutation when
    the keys are distinct. -/
theorem sort_entries_eq_of_perm (l1 l2 : List (String × String))
    (hp : l1.Perm l2) (hnd : (l1.map Prod.fst).Nodup) :
    sort_entries l1 = sort_entries l2 := by
  have htrans : ∀ a b c : String × String,
      entry_le a b = true → entry_le b c = true → entry_le a c = true := by
    intro a b c hab hbc
    simp only [entry_le, decide_eq_true_eq] at *
    exact le_trans hab hbc
  have htot : ∀ a b : String × String, (entry_le a b || entry_le b a) = true := by
    intro a b
    simp only [entry_le, Bool.or_eq_true, decide_eq_true_eq]
    exact le_total a.1 b.1
  have p1 : (sort_entries l1).Perm l1 := List.mergeSort_perm l1 entry_le
  have p2 : (sort_entries l2).Perm l2 := List.mergeSort_perm l2 entry_le
  have hp' : (sort_entries l1).Perm (sort_entries l2) := p1.trans (hp.trans p2.symm)
  have nd1 : ((sort_entries l1).map Prod.fst).Nodup :=
    hnd.perm ((p1.symm).map Prod.fst)
  have nd2 : ((sort_entries l2).map Prod.fst).Nodup :=
    nd1.perm (hp'.map Prod.fst)
  have s1 := List.sorted_mergeSort htrans htot l1
  have s2 := List.sorted_mergeSort htrans htot l2
  haveI : IsAntisymm (String × String) (fun a b => a.1 < b.1) :=
    ⟨fun _ _ h h2 => absurd h2 (lt_asymm h)⟩
  refine List.eq_of_perm_of_sorted (r := fun a b : String × String => a.1 < b.1) hp' ?_ ?_
  · exact (s1.and ((List.pairwise_map).mp nd1)).imp
      (fun h => lt_of_le_of_ne (by simpa [entry_le, decide_eq_true_eq] using h.1) h.2)
  · exact (s2.and ((List.pairwise_map).mp nd2)).imp
      (fun h => lt_of_le_of_ne (by simpa [entry_le, decide_eq_true_eq] using h.1) h.2)

/-- Helper: serializing dict entries is a map over the entries. -/
theorem json_dumps_entries_eq_map (d : List (String × PyVal)) :
    json_dumps_entries d = d.map (fun kv => (kv.1, json_dumps kv.2)) := by
  induction d with
  | nil => rfl
  | cons kv rest ih =>
      cases kv with
      | mk k v => simp [json_dumps_entries, ih]

/-- C6: for any endpoint, two parameter dictionaries holding the same
    key-value pairs in different key orders (a permutation, with distinct
    keys) produce the identical cache-key string, because the serialization
    sorts the entries canonically by key. -/
theorem c6_cache_key_canonical (endpoint : String)
    (p1 p2 : List (String × PyVal)) (hperm : p1.Perm p2)
    (hnd : (p1.map Prod.fst).Nodup) :
    get_cache_key endpoint p1 = get_cache_key endpoint p2 := by
  have hpe : (json_dumps_entries p1).Perm (json_dumps_entries p2) := by
    rw [json_dumps_entries_eq_map, json_dumps_entries_eq_map]
    exact hperm.map _
  have hfst : (json_dumps_entries p1).map Prod.fst = p1.map Prod.fst := by
    rw [json_dumps_entries_eq_map, List.map_map]
    rfl
  have hnd' : ((json_dumps_entries p1).map Prod.fst).Nodup := by
    rw [hfst]
    exact hnd
  have hsorted := sort_entries_eq_of_perm _ _ hpe hnd'
  simp only [get_cache_key, json_dumps, hsorted]

/-- C6 (witness): the two orders of the same two-entry parameter dict give
    equal cache keys. -/
theorem c6_cache_key_witness :
    ([("b", PyVal.num 2), ("a", PyVal.num 1)] : List (String × PyVal)).Perm
      [("a", PyVal.num 1), ("b", PyVal.num 2)] ∧
    (([("b", PyVal.num 2), ("a", PyVal.num 1)] : List (String × PyVal)).map
      Prod.fst).Nodup ∧
    get_cache_key "/markets" [("b", PyVal.num 2), ("a", PyVal.num 1)] =
      get_cache_key "/markets" [("a", PyVal.num 1), ("b", PyVal.num 2)] := by
  have hp : ([("b", PyVal.num 2), ("a", PyVal.num 1)] : List (String × PyVal)).Perm
      [("a", PyVal.num 1), ("b", PyVal.num 2)] :=
    List.Perm.swap ("a", PyVal.num 1) ("b", PyVal.num 2) []
  exact ⟨hp, by decide, c6_cache_key_canonical "/markets" _ _ hp (by decide)⟩

/-- Helper: rounding an integer-valued rational is the identity. -/
theorem round_half_even_intCast (z : ℤ) : round_half_even ((z : ℤ) : ℚ) = z := by
  simp only [round_half_even, rat_floor, Rat.num_intCast, Rat.den_intCast,
    Nat.cast_one, Int.fdiv_one, sub_self]
  norm_num

/-- Helper: evaluating the fixed-point formatter once the scaled argument is
    known to be the integer z. -/
theorem formatFixed_int (nd : ℕ) (x : ℚ) (z : ℤ) (h : x * 10 ^ nd = (z : ℚ)) :
    formatFixed nd x =
      if nd = 0 then (if z < 0 then "-" else "") ++ toString z.natAbs
      else (if z < 0 then "-" else "") ++ toString (z.natAbs / 10 ^ nd) ++ "." ++
        zero_pad nd (toString (z.natAbs % 10 ^ nd)) := by
  unfold formatFixed
  rw [h, round_half_even_intCast]

/-- C9 (counterexample): for a successful ZPI add-liquidity response whose
    wire price impact is 0.05, the output priceImpact field is the fixed
    literal, not the formula rendering of the wire value, so the percentage
    derivation is not applied uniformly across the conversion endpoints. -/
theorem c9_counterexample :
    (convert_add_liquidity_zpi_attempt
        (.response 200 (some (.dict [("priceImpact", PyVal.num (5 / 100))])))).map
        (fun v => pyField v "priceImpact") =
      .ok (some (.str "~0% (ZPI)")) ∧
    formatFixed 4 ((5 / 100 : ℚ) * 100) ++ "%" = "5.0000%" ∧
    ("~0% (ZPI)" : String) ≠ "5.0000%" := by
  refine ⟨?_, ?_, by decide⟩
  · simp [convert_add_liquidity_zpi_attempt, is2xx, pyGetAttr, Bind.bind,
      Except.bind, Except.map, pyField, dictGet]
  · rw [formatFixed_int 4 _ 50000 (by norm_num)]
    decide

/-- C9 (amended): the non-ZPI conversions derive the priceImpact output from
    the wire value by one uniform formula, wire times 100 formatted at 4
    decimals with a trailing percent sign, including the zero and absent
    cases which render as 0.0000 percent; market APY fields are formatted at
    2 decimals the same way; but the ZPI variant replaces the price-impact
    derivation with the fixed literal regardless of the wire value. -/
theorem c9_percent_format_amended (es ms : List (String × PyVal)) (q r : ℚ) :
    (dictGet es "priceImpact" = some (.num q) →
      (convert_swap_attempt (.response 200 (some (.dict es)))).map
          (fun v => pyField v "priceImpact") =
        .ok (some (.str (formatFixed 4 (q * 100) ++ "%")))) ∧
    (dictGet es "priceImpact" = Option.none →
      (convert_swap_attempt (.response 200 (some (.dict es)))).map
          (fun v => pyField v "priceImpact") =
        .ok (some (.str (formatFixed 4 ((0 : ℚ) * 100) ++ "%")))) ∧
    formatFixed 4 ((0 : ℚ) * 100) ++ "%" = "0.0000%" ∧
    (convert_add_liquidity_zpi_attempt (.response 200 (some (.dict es)))).map
        (fun v => pyField v "priceImpact") =
      .ok (some (.str "~0% (ZPI)")) ∧
    (dictGet ms "impliedApy" = some (.num r) →
     dictGet ms "aggregatedApy" = Option.none →
     dictGet ms "liquidity" = Option.none →
      (normalize_market 7 (.dict ms)).map (fun v => pyField v "impliedAPY") =
        .ok (some (.str (formatFixed 2 (r * 100) ++ "%")))) := by
  refine ⟨fun h => ?_, fun h => ?_, ?_, ?_, fun h1 h2 h3 => ?_⟩
  case refine_3 =>
    rw [formatFixed_int 4 _ 0 (by norm_num)]
    decide
  · simp [convert_swap_attempt, is2xx, pyGetAttr, pyGetNum, h, Bind.bind,
      Except.bind, Except.map, pyField, dictGet]
  · simp [convert_swap_attempt, is2xx, pyGetAttr, pyGetNum, h, Bind.bind,
      Except.bind, Except.map, pyField, dictGet]
  · simp [convert_add_liquidity_zpi_attempt, is2xx, pyGetAttr, Bind.bind,
      Except.bind, Except.map, pyField, dictGet]
  · simp [normalize_market, pyGetAttr, pyGetNum, h1, h2, h3, Bind.bind,
      Except.bind, Except.map, pyField, dictGet]

/-- C9 (witness): the uniform formula branch applied to a concrete swap
    response with wire price impact 3/200. -/
theorem c9_percent_format_witness :
    dictGet [("priceImpact", PyVal.num (3 / 200))] "priceImpact" =
      some (PyVal.num (3 / 200)) ∧
    (convert_swap_attempt
        (.response 200 (some (.dict [("priceImpact", PyVal.num (3 / 200))])))).map
        (fun v => pyField v "priceImpact") =
      .ok (some (.str (formatFixed 4 ((3 / 200 : ℚ) * 100) ++ "%"))) :=
  ⟨rfl,
   (c9_percent_format_amended [("priceImpact", PyVal.num (3 / 200))] [] (3 / 200) 0).1 rfl⟩

/-- Helper: the batch loop computes, in caller-supplied chain order, the
    concatenation of the per-chain contributions (skipping failed chains),
    propagating any normalization exception. -/
theorem markets_loop_eq_contribs (limit : ℕ) (upstream : ℕ → Except PyExc PyVal) :
    ∀ (cs : List ℕ) (acc : List PyVal),
      markets_loop limit acc (cs.map (fun cid => (cid, upstream cid))) =
        (chain_contribs limit upstream cs).map (fun ls => acc ++ ls.flatten) := by
  intro cs
  induction cs with
  | nil =>
      intro acc
      simp [markets_loop, chain_contribs, Except.map]
  | cons c rest ih =>
      intro acc
      cases hu : upstream c with
      | error e =>
          simp only [List.map_cons, markets_loop, chain_contribs,
            chain_contribution, hu, ih]
          cases hr : chain_contribs limit upstream rest <;> simp [Except.map]
      | ok rr =>
          cases hcr : chain_records c limit rr with
          | error e2 =>
              simp [List.map_cons, markets_loop, chain_contribs,
                chain_contribution, hu, hcr, Except.map]
          | ok recs =>
              simp only [List.map_cons, markets_loop, chain_contribs,
                chain_contribution, hu, hcr, ih]
              cases hr : chain_contribs limit upstream rest <;>
                simp [Except.map, List.append_assoc]

/-- C4 (counterexample): three chains where the first upstream call raises
    and the remaining two succeed with empty market lists: the batch result
    is the fabricated mock-market payload, not the (empty) concatenation of
    the remaining chains' records; the claim as stated fails on this input. -/
theorem c4_counterexample :
    get_markets_batch [1, 42161, 10]
        (fun cid => if cid = 1 then Except.error ⟨PyExcClass.transportError, "timeout"⟩
                    else Except.ok (PyVal.list [])) 20 =
      get_mock_markets [1, 42161, 10] 20 ∧
    pyField (get_mock_markets [1, 42161, 10] 20) "markets" =
      some (PyVal.list
        ((([1, 42161, 10] : List ℕ).flatMap mock_markets_for_chain).take
          (20 * ([1, 42161, 10] : List ℕ).length))) ∧
    (([1, 42161, 10] : List ℕ).flatMap mock_markets_for_chain).take
        (20 * ([1, 42161, 10] : List ℕ).length) ≠ [] := by
  refine ⟨rfl, rfl, ?_⟩
  simp [mock_markets_for_chain]

/-- C4 (amended): when every per-chain contribution normalizes without an
    exception and the merged record list is nonempty, a failed chain simply
    contributes zero records, the batch returns the contributions of the
    remaining chains concatenated in caller-supplied chain order without
    raising, and totalChains is the number of chains queried (not the
    number that succeeded); if the merged list is empty the code instead
    substitutes the fabricated mock markets (see the counterexample). -/
theorem c4_batch_amended (cs : List ℕ) (upstream : ℕ → Except PyExc PyVal)
    (limit : ℕ) (contribs : List (List PyVal))
    (h : chain_contribs limit upstream cs = .ok contribs)
    (hne : contribs.flatten ≠ []) :
    get_markets_batch cs upstream limit =
      .dict [("markets", .list contribs.flatten),
             ("totalChains", .num (cs.length : ℚ))] ∧
    ∀ cid e, upstream cid = .error e →
      chain_contribution limit upstream cid = .ok [] := by
  constructor
  · unfold get_markets_batch
    rw [markets_loop_eq_contribs, h]
    simp only [Except.map, List.nil_append]
  · intro cid e he
    simp [chain_contribution, he]

/-- C4 (witness): two chains, the first failing with a transport error, the
    second contributing one normalized record. -/
theorem c4_batch_witness :
    chain_contribs 20
        (fun cid => if cid = 1 then Except.error ⟨PyExcClass.transportError, "timeout"⟩
                    else Except.ok (PyVal.list [PyVal.dict
                      [("address", PyVal.str "0xabc"), ("name", PyVal.str "M"),
                       ("impliedApy", PyVal.num 0), ("aggregatedApy", PyVal.num 0),
                       ("liquidity", PyVal.num 0)]]))
        [1, 7] =
      .ok [[],
           [PyVal.dict
              [("address", PyVal.str "0xabc"),
               ("name", PyVal.str "M"),
               ("chain", PyVal.str (get_chain_name 7)),
               ("chainId", PyVal.num ((7 : ℕ) : ℚ)),
               ("impliedAPY", PyVal.str (formatFixed 2 ((0 : ℚ) * 100) ++ "%")),
               ("lpAPY", PyVal.str (formatFixed 2 ((0 : ℚ) * 100) ++ "%")),
               ("liquidity", PyVal.str ("$" ++ formatFixed 2 ((0 : ℚ) / 1000000) ++ "M"))]]] ∧
    get_markets_batch [1, 7]
        (fun cid => if cid = 1 then Except.error ⟨PyExcClass.transportError, "timeout"⟩
                    else Except.ok (PyVal.list [PyVal.dict
                      [("address", PyVal.str "0xabc"), ("name", PyVal.str "M"),
                       ("impliedApy", PyVal.num 0), ("aggregatedApy", PyVal.num 0),
                       ("liquidity", PyVal.num 0)]]))
        20 =
      .dict [("markets", .list
                ([[],
                  [PyVal.dict
                     [("address", PyVal.str "0xabc"),
                      ("name", PyVal.str "M"),
                      ("chain", PyVal.str (get_chain_name 7)),
                      ("chainId", PyVal.num ((7 : ℕ) : ℚ)),
                      ("impliedAPY", PyVal.str (formatFixed 2 ((0 : ℚ) * 100) ++ "%")),
                      ("lpAPY", PyVal.str (formatFixed 2 ((0 : ℚ) * 100) ++ "%")),
                      ("liquidity", PyVal.str ("$" ++ formatFixed 2 ((0 : ℚ) / 1000000) ++ "M"))]]] :
                  List (List PyVal)).flatten),
             ("totalChains", .num ((([1, 7] : List ℕ).length : ℕ) : ℚ))] := by
  have h : chain_contribs 20
      (fun cid => if cid = 1 then Except.error ⟨PyExcClass.transportError, "timeout"⟩
                  else Except.ok (PyVal.list [PyVal.dict
                    [("address", PyVal.str "0xabc"), ("name", PyVal.str "M"),
                     ("impliedApy", PyVal.num 0), ("aggregatedApy", PyVal.num 0),
                     ("liquidity", PyVal.num 0)]]))
      [1, 7] =
      .ok [[],
           [PyVal.dict
              [("address", PyVal.str "0xabc"),
               ("name", PyVal.str "M"),
               ("chain", PyVal.str (get_chain_name 7)),
               ("chainId", PyVal.num ((7 : ℕ) : ℚ)),
               ("impliedAPY", PyVal.str (formatFixed 2 ((0 : ℚ) * 100) ++ "%")),
               ("lpAPY", PyVal.str (formatFixed 2 ((0 : ℚ) * 100) ++ "%")),
               ("liquidity", PyVal.str ("$" ++ formatFixed 2 ((0 : ℚ) / 1000000) ++ "M"))]]] := rfl
  refine ⟨h, (c4_batch_amended [1, 7] _ 20 _ h (by simp)).1⟩
